import Mathlib

/-!
Shallow embedding of the core of `yt_tools_cli` (files
`youtube_api_module.py`, `yt_tools_cli.py`) and proofs about it.

Python `set` objects are modelled as `Finset String`; Python machine
integers are `Nat`/`Int`; absent dictionary keys are `Option`.  Each
definition cites the source lines it is translated from.
-/

/-- Python `str.lower()` restricted to the character-wise lowering used by
the repository (ASCII phrases and channel names). -/
def pyLower (s : String) : String :=
  String.mk (s.data.map Char.toLower)

/-! ## SearchModel (youtube_api_module.py lines 21-104) -/

/-- `SearchModel.scoring_weights` dictionary, lines 31-40 of
`youtube_api_module.py`; the keys are fixed in the source, so it is
modelled as a structure. -/
structure ScoringWeights where
  title_match : Int := 20
  view_count : Int := 10
  like_ratio : Int := 15
  trusted_channel : Int := 15
  noise_channel : Int := -10
  duration_match : Int := 10
  context_match : Int := 15
  recency : Int := 10
deriving DecidableEq, Repr

/-- One entry of `SearchModel.duration_ranges` (lines 41-45): a min bound and
an optional max bound, in minutes. -/
structure DurationRange where
  min : Nat
  max : Option Nat
deriving DecidableEq, Repr

/-- `SearchModel.duration_ranges`, lines 41-45 of `youtube_api_module.py`. -/
structure DurationRanges where
  how_to_play : DurationRange := ⟨5, some 20⟩
  review : DurationRange := ⟨10, some 30⟩
  playthrough : DurationRange := ⟨30, none⟩
deriving DecidableEq, Repr

/-- The state of a `SearchModel` instance (lines 21-45 of
`youtube_api_module.py`). -/
structure SearchModel where
  game_type : String
  persistent_exclusions : Finset String
  session_exclusions : Finset String
  trusted_channels : Finset String
  noise_channels : Finset String
  scoring_weights : ScoringWeights
  duration_ranges : DurationRanges
deriving DecidableEq

/-- `SearchModel.__init__` (lines 23-45): every set empty, default weights
and ranges. -/
def SearchModel.init (game_type : String) : SearchModel :=
  { game_type := game_type
    persistent_exclusions := ∅
    session_exclusions := ∅
    trusted_channels := ∅
    noise_channels := ∅
    scoring_weights := {}
    duration_ranges := {} }

/-- The dictionary produced by `SearchModel.to_dict` (lines 47-56).  Note the
source omits `session_exclusions` from the serialized form. -/
structure ModelDict where
  game_type : String
  persistent_exclusions : Finset String
  trusted_channels : Finset String
  noise_channels : Finset String
  scoring_weights : ScoringWeights
  duration_ranges : DurationRanges
deriving DecidableEq

/-- `SearchModel.to_dict`, lines 47-56 of `youtube_api_module.py`. -/
def SearchModel.to_dict (m : SearchModel) : ModelDict :=
  { game_type := m.game_type
    persistent_exclusions := m.persistent_exclusions
    trusted_channels := m.trusted_channels
    noise_channels := m.noise_channels
    scoring_weights := m.scoring_weights
    duration_ranges := m.duration_ranges }

/-- `SearchModel.from_dict`, lines 58-67: builds a fresh model (so
`session_exclusions` is empty) and overwrites the serialized fields. -/
def SearchModel.from_dict (d : ModelDict) : SearchModel :=
  { game_type := d.game_type
    persistent_exclusions := d.persistent_exclusions
    session_exclusions := ∅
    trusted_channels := d.trusted_channels
    noise_channels := d.noise_channels
    scoring_weights := d.scoring_weights
    duration_ranges := d.duration_ranges }

/-- Observable side effects of a `SearchModel` mutator.
`attributeErrorNoSaveModel` records that the source executed
`self._save_model(self.game_type)` (lines 78 and 84) although the
`SearchModel` class defines no `_save_model` attribute and none is ever
assigned to an instance, so the call raises `AttributeError` after the
in-memory mutation has already happened. -/
inductive ModelEffect where
  | saveModel (game_type : String)
  | attributeErrorNoSaveModel
deriving DecidableEq, Repr

/-- `SearchModel.add_exclusion`, lines 69-78: lowercases the phrase, inserts
it into the persistent or session set, then for `persistent=True` evaluates
`self._save_model(...)`, which raises `AttributeError` (no such attribute). -/
def SearchModel.add_exclusion (m : SearchModel) (phrase : String)
    (persistent : Bool) : SearchModel × List ModelEffect :=
  if persistent then
    ({ m with persistent_exclusions :=
        insert (pyLower phrase) m.persistent_exclusions },
     [ModelEffect.attributeErrorNoSaveModel])
  else
    ({ m with session_exclusions :=
        insert (pyLower phrase) m.session_exclusions }, [])

/-- `SearchModel.remove_exclusion`, lines 80-86: discards the lowercased
phrase; for `persistent=True` it then evaluates `self._save_model(...)`,
which raises `AttributeError`. -/
def SearchModel.remove_exclusion (m : SearchModel) (phrase : String)
    (persistent : Bool) : SearchModel × List ModelEffect :=
  if persistent then
    ({ m with persistent_exclusions :=
        m.persistent_exclusions.erase (pyLower phrase) },
     [ModelEffect.attributeErrorNoSaveModel])
  else
    ({ m with session_exclusions :=
        m.session_exclusions.erase (pyLower phrase) }, [])

/-- `SearchModel.get_all_exclusions`, lines 88-90. -/
def SearchModel.get_all_exclusions (m : SearchModel) : Finset String :=
  m.persistent_exclusions ∪ m.session_exclusions

/-- `SearchModel.clear_session_exclusions`, lines 92-94. -/
def SearchModel.clear_session_exclusions (m : SearchModel) : SearchModel :=
  { m with session_exclusions := ∅ }

/-- `SearchModel.add_trusted_channel`, lines 96-99: inserts into
`trusted_channels` and discards from `noise_channels`.  Despite its
docstring ("Add a trusted channel and save the model."), the body performs
no save, hence the empty effect list. -/
def SearchModel.add_trusted_channel (m : SearchModel) (channel : String) :
    SearchModel × List ModelEffect :=
  ({ m with trusted_channels := insert channel m.trusted_channels
            noise_channels := m.noise_channels.erase channel }, [])

/-- `SearchModel.add_noise_channel`, lines 101-104: inserts into
`noise_channels` and discards from `trusted_channels`; like
`add_trusted_channel` it performs no save. -/
def SearchModel.add_noise_channel (m : SearchModel) (channel : String) :
    SearchModel × List ModelEffect :=
  ({ m with noise_channels := insert channel m.noise_channels
            trusted_channels := m.trusted_channels.erase channel }, [])

/-- States of a `SearchModel` reachable from the constructor through the
model's own operations (including a serialize/deserialize round trip). -/
inductive SearchModel.Reachable : SearchModel → Prop
  | init (g : String) : SearchModel.Reachable (SearchModel.init g)
  | addExclusion (m : SearchModel) (phrase : String) (persistent : Bool) :
      SearchModel.Reachable m →
      SearchModel.Reachable (m.add_exclusion phrase persistent).1
  | removeExclusion (m : SearchModel) (phrase : String) (persistent : Bool) :
      SearchModel.Reachable m →
      SearchModel.Reachable (m.remove_exclusion phrase persistent).1
  | clearSession (m : SearchModel) :
      SearchModel.Reachable m →
      SearchModel.Reachable m.clear_session_exclusions
  | addTrusted (m : SearchModel) (channel : String) :
      SearchModel.Reachable m →
      SearchModel.Reachable (m.add_trusted_channel channel).1
  | addNoise (m : SearchModel) (channel : String) :
      SearchModel.Reachable m →
      SearchModel.Reachable (m.add_noise_channel channel).1
  | roundTrip (m : SearchModel) :
      SearchModel.Reachable m →
      SearchModel.Reachable (SearchModel.from_dict m.to_dict)

/-! ## Quota tracking (youtube_api_module.py lines 466-477) -/

/-- Result of one `_track_quota` call: the value of
`self.session_quota_used` after the call, and whether the call raised
`QuotaConfirmationError`.  Mutations on a Python object survive a raised
exception, so the incremented counter is the post-state in both cases. -/
structure TrackQuotaOutcome where
  session_quota_used : Nat
  raisedQuotaConfirmationError : Bool
deriving DecidableEq, Repr

/-- `YouTubeTools._track_quota`, lines 466-477 of `youtube_api_module.py`:
it first executes `self.session_quota_used += points`; only then, when
`points > 100`, does it prompt, and an answer whose lowercase form differs
from `"y"` raises `QuotaConfirmationError`.  `confirm_answer` is the
operator's response to the prompt (unread when `points <= 100`). -/
def track_quota (session_quota_used points : Nat) (confirm_answer : String) :
    TrackQuotaOutcome :=
  let used := session_quota_used + points
  if 100 < points ∧ pyLower confirm_answer ≠ "y" then
    ⟨used, true⟩
  else
    ⟨used, false⟩

/-! ## Duration normalization (youtube_api_module.py lines 459-464) -/

/-- `YouTubeTools._parse_iso_duration`, lines 459-464: the ISO-8601 duration
`PT{h}H{m}M{s}S` (missing components zero) has
`total_seconds() = 3600*h + 60*m + s`, and `int(... / 60)` truncates toward
zero, which on these non-negative integers is `Nat` division. -/
def parse_iso_duration (h m s : Nat) : Nat :=
  (3600 * h + 60 * m + s) / 60

/-! ## Playlist pagination (youtube_api_module.py lines 266-296) -/

/-- One playlist item as used by `get_playlist_items`: its id and the
`snippet.videoOwnerChannelId` field the channel filter inspects. -/
structure PlaylistItem where
  videoId : String
  videoOwnerChannelId : String
deriving DecidableEq, Repr

/-- The post-fetch channel filter of `get_playlist_items`, lines 283-288. -/
def filterByChannel (channel_id : Option String) (page : List PlaylistItem) :
    List PlaylistItem :=
  match channel_id with
  | some c => page.filter (fun it => it.videoOwnerChannelId == c)
  | none => page

/-- `YouTubeTools.get_playlist_items`, lines 266-296.  The provider is
modelled as the finite sequence of pages it serves: request `k` returns
`pages[k]` (at most 50 items) together with a continuation token that is
present exactly when a page `k+1` exists, so the `while True` loop visits
the pages in order and stops after the last one.  Each iteration appends
the (optionally channel-filtered) page to `items`. -/
def get_playlist_items (pages : List (List PlaylistItem))
    (channel_id : Option String) : List PlaylistItem :=
  match pages with
  | [] => []
  | page :: rest => filterByChannel channel_id page ++ get_playlist_items rest channel_id

/-! ## Video candidates and scoring (youtube_api_module.py lines 1224-1278) -/

/-- The parse status of the `upload_date` field as consumed by
`score_video` lines 1269-1276: `datetime.fromisoformat` either raises
`ValueError` (`malformed`), or yields a timezone-aware datetime (the source
replaced a trailing `Z` with `+00:00`), in which case
`datetime.now() - upload_date` raises `TypeError` (naive minus aware), or
yields a naive datetime, modelled by its day number. -/
inductive UploadDate where
  | malformed
  | aware (day : Int)
  | naive (day : Int)
deriving DecidableEq, Repr

/-- One search result dictionary as consumed by `score_video`.  `none`
models an absent key.  `duration` holds the numbers that
`re.findall(r'(\d+)[hm]', duration_str)` extracts from the
human-formatted duration string. -/
structure Video where
  id : String
  title : String
  channel_title : String
  description : String
  view_count : Option Nat
  like_count : Option Nat
  duration : Option (List Nat)
  upload_date : Option UploadDate
deriving DecidableEq, Repr

/-- Python `\w` word character (ASCII fragment, as used on these titles). -/
def isWordChar (c : Char) : Bool :=
  c.isAlphanum || c == '_'

/-- The regex `\b` word boundary between two adjacent positions (`none` is
the edge of the string): it holds iff exactly one side is a word char. -/
def wordBoundary : Option Char → Option Char → Bool
  | none, none => false
  | none, some c => isWordChar c
  | some c, none => isWordChar c
  | some a, some b => isWordChar a != isWordChar b

/-- `needle` occurs at the head of `hay`. -/
def leadsWith : List Char → List Char → Bool
  | [], _ => true
  | _ :: _, [] => false
  | a :: as, b :: bs => a == b && leadsWith as bs

/-- `needle` occurs somewhere in `hay` (Python's `in` on strings). -/
def containsSeq (needle : List Char) : List Char → Bool
  | [] => leadsWith needle []
  | c :: rest => leadsWith needle (c :: rest) || containsSeq needle (c :: rest |>.tail)

/-- Scan of `re.search(rf'\b{escaped}\b', title)`: an occurrence of `name`
starting at the current position (with `prev` the preceding character) that
has a word boundary on both sides, or a match further right. -/
def wordMatchFrom (name : List Char) : Option Char → List Char → Bool
  | _, [] => false
  | prev, c :: rest =>
      (leadsWith name (c :: rest) && wordBoundary prev name.head?
        && wordBoundary name.getLast? ((c :: rest).drop name.length).head?)
      || wordMatchFrom name (some c) rest

/-- `re.search(rf'\b{re.escape(game_name)}\b', title, re.IGNORECASE)` of
line 1229, with `re.IGNORECASE` modelled by lowering both sides. -/
def titleWordMatch (game_name title : String) : Bool :=
  wordMatchFrom (game_name.data.map Char.toLower) none (title.data.map Char.toLower)

/-- Python `needle in hay` on strings. -/
def strContains (hay needle : String) : Bool :=
  containsSeq needle.data hay.data

/-- Title-match factor of `score_video`, lines 1228-1230. -/
def titleFactor (game_name : String) (video : Video) : Int :=
  if titleWordMatch game_name video.title then 20 else 0

/-- View-count factor of `score_video`, lines 1232-1235:
`views = video.get('view_count', 0)`, and the bonus
`min(10, views // 1000)` is added only under `views > 1000`. -/
def viewFactor (video : Video) : Int :=
  let views := video.view_count.getD 0
  if 1000 < views then ((min 10 (views / 1000) : Nat) : Int) else 0

/-- Like-ratio factor of `score_video`, lines 1237-1240, guarded by
`views > 0 and 'like_count' in video`.  The source computes
`int(like_count / views * 100)` in binary floating point; on the integer
inputs the repository feeds it this is `likes * 100 / views` truncated,
which is how it is modelled (no claim settled here depends on the
float rounding of this factor). -/
def likeFactor (video : Video) : Int :=
  let views := video.view_count.getD 0
  match video.like_count with
  | some likes => if 0 < views then ((min 15 (likes * 100 / views) : Nat) : Int) else 0
  | none => 0

/-- `minutes` computation of line 1246:
`sum(x * int(t) for x, t in zip([60, 1], re.findall(...)))`. -/
def parsedMinutes (nums : List Nat) : Nat :=
  (([60, 1].zip nums).map (fun p => p.1 * p.2)).sum

/-- Duration-fit factor of `score_video`, lines 1242-1261: only when the
`duration` key is present and the parsed minutes are nonzero; the intent
category is inferred from keywords of the lowercased title. -/
def durationFactor (video : Video) : Int :=
  match video.duration with
  | none => 0
  | some nums =>
      let minutes := parsedMinutes nums
      if minutes ≠ 0 then
        if strContains (pyLower video.title) "how to play" then
          if 5 ≤ minutes ∧ minutes ≤ 20 then 10 else 0
        else if strContains (pyLower video.title) "review" then
          if 10 ≤ minutes ∧ minutes ≤ 30 then 10 else 0
        else if strContains (pyLower video.title) "playthrough"
            || strContains (pyLower video.title) "gameplay" then
          if 30 ≤ minutes then 10 else 0
        else 0
      else 0

/-- Description-context factor of `score_video`, lines 1263-1266:
`f'{game_type} game' in video.get('description', '').lower()`. -/
def contextFactor (game_type : String) (video : Video) : Int :=
  if strContains (pyLower video.description) (game_type ++ " game") then 15 else 0

/-- Recency factor of `score_video`, lines 1268-1276.  `nowDay` is the day
number of `datetime.now()` at the moment of the call.  A malformed
timestamp raises `ValueError` and an aware one makes the subtraction raise
`TypeError`; both are caught and contribute zero. -/
def recencyFactor (video : Video) (nowDay : Int) : Int :=
  match video.upload_date with
  | none => 0
  | some UploadDate.malformed => 0
  | some (UploadDate.aware _) => 0
  | some (UploadDate.naive d) =>
      let age_days := nowDay - d
      if age_days < 365 then min 10 ((365 - age_days) / 36) else 0

/-- `YouTubeTools.score_video`, lines 1224-1278: the sequential
`score += ...` accumulation of the six independent factors.  The call
time enters only through the recency factor's use of `datetime.now()`,
made explicit as the `nowDay` argument. -/
def score_video (video : Video) (game_type game_name : String) (nowDay : Int) : Int :=
  titleFactor game_name video + viewFactor video + likeFactor video
    + durationFactor video + contextFactor game_type video
    + recencyFactor video nowDay

/-! ## search_videos merge step (youtube_api_module.py lines 1215-1222) -/

/-- The key order of a Python dict built by comprehension: each key at the
position of its first occurrence. -/
def firstOcc : List String → List String
  | [] => []
  | x :: xs => x :: (firstOcc xs).filter (fun y => y ≠ x)

/-- Line 1216, `{v[0]['id']: v for v in all_results}.values()`: keys in
first-occurrence order, each mapped to the LAST pair in `all_results`
carrying that id (a later insertion overwrites the dict value in place). -/
def dedupLastById (all_results : List (Video × Int)) : List (Video × Int) :=
  (firstOcc (all_results.map (fun p => p.1.id))).filterMap
    (fun i => (all_results.filter (fun p => decide (p.1.id = i))).getLast?)

/-- Lines 1215-1219 of `search_videos`: deduplicate by id, then
`sorted(..., key=lambda x: x[1], reverse=True)[:10]`.  Python's sort is
stable and `reverse=True` keeps equal keys in original order, which is
exactly insertion sort by `≥` on the score. -/
def search_videos_merge (all_results : List (Video × Int)) : List (Video × Int) :=
  ((dedupLastById all_results).insertionSort (fun a b => a.2 ≥ b.2)).take 10

/-! ## Concrete inputs used by counterexamples and witnesses -/

/-- A candidate with id `"abc"` and no optional metadata. -/
def vAbc : Video := ⟨"abc", "t", "c", "", none, none, none, none⟩

/-- A candidate whose only scoring-relevant field is a parseable naive
upload timestamp (day number 0). -/
def vRec : Video := ⟨"r", "", "", "", none, none, none, some (UploadDate.naive 0)⟩

/-- A candidate with a known view count of exactly 1000 and every other
scoring factor inert. -/
def v1000 : Video := ⟨"v", "", "", "", some 1000, none, none, none⟩

/-- A candidate with a known view count of 5000. -/
def v5000 : Video := ⟨"w", "", "", "", some 5000, none, none, none⟩

/-- A candidate carrying no `upload_date` key. -/
def vNoDate : Video := ⟨"n", "", "", "", none, none, none, none⟩

/-- A fresh board model whose persistent exclusions already contain `"x"`. -/
def mPersistX : SearchModel :=
  { SearchModel.init "board" with persistent_exclusions := {"x"} }

/-- A two-page provider transcript (2 items then 1 item). -/
def samplePages : List (List PlaylistItem) :=
  [[⟨"a", "c1"⟩, ⟨"b", "c2"⟩], [⟨"c", "c1"⟩]]

/-! ## C2 -/

/-- C2: `_track_quota` evaluated at the failing input.  With
`session_quota_used = 0`, a 150-point request and operator answer `"n"`
does raise `QuotaConfirmationError`, but `session_quota_used` ends at 150
rather than its pre-call value 0: the source commits the charge
(`self.session_quota_used += points`, line 467) before the confirmation
prompt of lines 470-474, and never rolls it back. -/
theorem track_quota_decline_still_charges :
    track_quota 0 150 "n"
        = { session_quota_used := 150, raisedQuotaConfirmationError := true }
      ∧ (track_quota 0 150 "n").session_quota_used ≠ 0 := by
  exact ⟨by decide, by decide⟩

/-! ## C3 -/

/-- C3: no mutator of a persistent `SearchModel` field persists the model.
`add_trusted_channel` and `add_noise_channel` (lines 96-104) perform no
save at all, contradicting their own docstrings ("... and save the
model."); `add_exclusion`/`remove_exclusion` with `persistent=True`
(lines 69-86) call `self._save_model`, an attribute `SearchModel` never
defines, so instead of degrading to in-memory-only with a warning the
operation raises `AttributeError` after mutating the set. -/
theorem persistent_mutations_do_not_save :
    (SearchModel.add_trusted_channel (SearchModel.init "board") "Chan").2 = []
  ∧ (SearchModel.add_noise_channel (SearchModel.init "board") "Chan").2 = []
  ∧ ((SearchModel.init "board").add_exclusion "x" true).2
      = [ModelEffect.attributeErrorNoSaveModel]
  ∧ ((SearchModel.init "board").remove_exclusion "x" true).2
      = [ModelEffect.attributeErrorNoSaveModel] := by
  refine ⟨by decide, by decide, by decide, by decide⟩

/-! ## C7 -/

/-- C7 counterexample: a known view count of exactly 1000 contributes 0 to
the score, not `min(10, 1000 // 1000) = 1`, because line 1234 guards the
bonus with `views > 1000`, not with the view count being known. -/
theorem view_factor_at_1000_counterexample :
    v1000.view_count = some 1000
  ∧ viewFactor v1000 = 0
  ∧ min 10 (1000 / 1000) = 1
  ∧ score_video v1000 "board" "zzz" 400 = 0 := by
  refine ⟨rfl, by decide, by decide, by decide⟩

/-- C7 amended: when the view count is known to be `n`, the view-count
factor of `score_video` is `min(10, n // 1000)` if `n > 1000` and `0`
otherwise (so a known count of exactly 1000 contributes 0). -/
theorem view_factor_amended (v : Video) (n : Nat) (h : v.view_count = some n) :
    viewFactor v = if 1000 < n then ((min 10 (n / 1000) : Nat) : Int) else 0 := by
  simp [viewFactor, h]

/-- C7 witness: `view_factor_amended` at the concrete candidate with 5000
known views. -/
theorem view_factor_amended_witness :
    viewFactor v5000 = if 1000 < 5000 then ((min 10 (5000 / 1000) : Nat) : Int) else 0 :=
  view_factor_amended v5000 5000 rfl

/-! ## C8 -/

/-- C8: for a provider serving its items across finitely many pages of at
most 50 items each (the final page carrying no continuation token),
`get_playlist_items` with no channel filter terminates (it is a total
function of the page list) and returns exactly the concatenation of the
pages: all N items, in provider order. -/
theorem get_playlist_items_pagination (pages : List (List PlaylistItem))
    (hpages : ∀ p ∈ pages, p.length ≤ 50) :
    get_playlist_items pages none = pages.flatten
      ∧ (get_playlist_items pages none).length = (pages.flatten).length := by
  have h : get_playlist_items pages none = pages.flatten := by
    clear hpages
    induction pages with
    | nil => rfl
    | cons page rest ih =>
        simp [get_playlist_items, filterByChannel, ih]
  exact ⟨h, by rw [h]⟩

/-- C8 witness: the pagination theorem applied to the concrete two-page
transcript `samplePages`. -/
theorem get_playlist_items_pagination_witness :
    get_playlist_items samplePages none = samplePages.flatten
      ∧ (get_playlist_items samplePages none).length = (samplePages.flatten).length :=
  get_playlist_items_pagination samplePages (by decide)

/-! ## C9 -/

/-- C9: `_parse_iso_duration` maps an hours/minutes/seconds encoding
(missing components zero) to total seconds divided by 60, truncated toward
zero; equivalently `60*h + m + s/60`, treating the components
independently.  In particular 1h5m0s gives 65 and 0h0m45s gives 0. -/
theorem parse_iso_duration_components (h m s : Nat) :
    parse_iso_duration h m s = (3600 * h + 60 * m + s) / 60
  ∧ parse_iso_duration h m s = 60 * h + m + s / 60
  ∧ parse_iso_duration 1 5 0 = 65
  ∧ parse_iso_duration 0 0 45 = 0 := by
  refine ⟨rfl, ?_, by decide, by decide⟩
  have hsplit : 3600 * h + 60 * m + s = 60 * (60 * h + m) + s := by ring
  rw [parse_iso_duration, hsplit, Nat.mul_add_div (by norm_num)]

/-! ## C10 -/

/-- C10: `clear_session_exclusions` empties `session_exclusions` and leaves
every other field of the model unchanged. -/
theorem clear_session_exclusions_frame (m : SearchModel) :
    (m.clear_session_exclusions).session_exclusions = ∅
  ∧ (m.clear_session_exclusions).persistent_exclusions = m.persistent_exclusions
  ∧ (m.clear_session_exclusions).trusted_channels = m.trusted_channels
  ∧ (m.clear_session_exclusions).noise_channels = m.noise_channels
  ∧ (m.clear_session_exclusions).scoring_weights = m.scoring_weights
  ∧ (m.clear_session_exclusions).duration_ranges = m.duration_ranges
  ∧ (m.clear_session_exclusions).game_type = m.game_type :=
  ⟨rfl, rfl, rfl, rfl, rfl, rfl, rfl⟩

/-! ## C4 -/

/-- The video carries an upload timestamp that parses to a naive datetime —
the only case in which `score_video`'s recency branch reaches the
`datetime.now()` subtraction without an exception. -/
def hasNaiveDate (v : Video) : Bool :=
  match v.upload_date with
  | some (UploadDate.naive _) => true
  | _ => false

/-- C4 counterexample: `score_video` is not independent of the call time.
The candidate `vRec` (naive upload timestamp at day 0, every other factor
inert) scores 10 when `datetime.now()` falls on day 0 (recency bonus
`min(10, 365 // 36)`) but 0 when it falls on day 400. -/
theorem score_video_time_dependent :
    score_video vRec "board" "zzz" 0 = 10
  ∧ score_video vRec "board" "zzz" 400 = 0
  ∧ score_video vRec "board" "zzz" 0 ≠ score_video vRec "board" "zzz" 400 := by
  refine ⟨by decide, by decide, by decide⟩

/-- C4 amended: `score_video` is a deterministic function of the candidate,
the domain, the target name and the current date (it is modelled as such,
with `datetime.now()` of line 1272 made the explicit `nowDay` argument);
repeated calls yield identical output whenever they see the same date, and
are independent of the call time whenever the candidate carries no
parseable timezone-naive upload timestamp (absent, malformed and
timezone-aware timestamps all contribute zero at every call time). -/
theorem score_video_amended (v : Video) (gt gn : String) (t₁ t₂ : Int)
    (h : hasNaiveDate v = false) :
    score_video v gt gn t₁ = score_video v gt gn t₂ := by
  have hrec : recencyFactor v t₁ = recencyFactor v t₂ := by
    unfold hasNaiveDate at h
    unfold recencyFactor
    cases hv : v.upload_date with
    | none => rfl
    | some u =>
        cases u with
        | malformed => rfl
        | aware d => rfl
        | naive d => rw [hv] at h; simp at h
  unfold score_video
  rw [hrec]

/-- C4 witness: `score_video_amended` at the concrete candidate with no
upload timestamp, evaluated at days 0 and 5. -/
theorem score_video_amended_witness :
    score_video vNoDate "board" "g" 0 = score_video vNoDate "board" "g" 5 :=
  score_video_amended vNoDate "board" "g" 0 5 (by decide)

/-! ## C5 -/

/-- C5: every state reachable through the model's operations keeps
`trusted_channels` and `noise_channels` disjoint, and in particular after
`add_trusted_channel c` followed by `add_noise_channel c` the channel `c`
is in `noise_channels` and not in `trusted_channels` (each setter evicts
the channel from the opposite set, lines 96-104). -/
theorem trusted_noise_mutual_exclusion :
    (∀ m : SearchModel, SearchModel.Reachable m →
        m.trusted_channels ∩ m.noise_channels = ∅)
  ∧ ∀ (m : SearchModel) (c : String),
      c ∈ (((m.add_trusted_channel c).1.add_noise_channel c).1).noise_channels
      ∧ c ∉ (((m.add_trusted_channel c).1.add_noise_channel c).1).trusted_channels := by
  constructor
  · intro m hm
    induction hm with
    | init g => simp [SearchModel.init]
    | addExclusion m phrase persistent _ ih =>
        cases persistent <;> simpa [SearchModel.add_exclusion] using ih
    | removeExclusion m phrase persistent _ ih =>
        cases persistent <;> simpa [SearchModel.remove_exclusion] using ih
    | clearSession m _ ih =>
        simpa [SearchModel.clear_session_exclusions] using ih
    | addTrusted m c _ ih =>
        have hd : ∀ y, y ∈ m.trusted_channels → y ∉ m.noise_channels := by
          intro y hyT hyN
          have : y ∈ m.trusted_channels ∩ m.noise_channels :=
            Finset.mem_inter_of_mem hyT hyN
          rw [ih] at this
          exact absurd this (Finset.not_mem_empty y)
        ext x
        simp only [SearchModel.add_trusted_channel, Finset.mem_inter,
          Finset.mem_insert, Finset.mem_erase, Finset.not_mem_empty, iff_false,
          not_and]
        by_cases hxc : x = c
        · subst hxc; tauto
        · have := hd x; tauto
    | addNoise m c _ ih =>
        have hd : ∀ y, y ∈ m.trusted_channels → y ∉ m.noise_channels := by
          intro y hyT hyN
          have : y ∈ m.trusted_channels ∩ m.noise_channels :=
            Finset.mem_inter_of_mem hyT hyN
          rw [ih] at this
          exact absurd this (Finset.not_mem_empty y)
        ext x
        simp only [SearchModel.add_noise_channel, Finset.mem_inter,
          Finset.mem_insert, Finset.mem_erase, Finset.not_mem_empty, iff_false,
          not_and]
        by_cases hxc : x = c
        · subst hxc; tauto
        · have := hd x; tauto
    | roundTrip m _ ih =>
        simpa [SearchModel.from_dict, SearchModel.to_dict] using ih
  · intro m c
    constructor
    · simp [SearchModel.add_noise_channel, SearchModel.add_trusted_channel]
    · simp [SearchModel.add_noise_channel, SearchModel.add_trusted_channel]

/-- C5 witness: the invariant half of `trusted_noise_mutual_exclusion`
applied to the concrete reachable state obtained by marking channel
`"Chan"` trusted on a fresh board model. -/
theorem trusted_noise_mutual_exclusion_witness :
    ((SearchModel.init "board").add_trusted_channel "Chan").1.trusted_channels
      ∩ ((SearchModel.init "board").add_trusted_channel "Chan").1.noise_channels = ∅ :=
  trusted_noise_mutual_exclusion.1 _
    (SearchModel.Reachable.addTrusted _ "Chan" (SearchModel.Reachable.init "board"))

/-! ## C6 -/

/-- C6 counterexample: on a model whose persistent exclusions already
contain `"x"`, `add_exclusion("x", persistent=True)` followed by
`remove_exclusion("x", persistent=True)` changes `get_all_exclusions()`
from `{"x"}` to `∅`: the add is absorbed by the set and the remove then
deletes the pre-existing entry. -/
theorem exclusion_round_trip_counterexample :
    SearchModel.get_all_exclusions
        (((mPersistX.add_exclusion "x" true).1).remove_exclusion "x" true).1
      ≠ mPersistX.get_all_exclusions := by
  decide

/-- C6 amended: the persistent add/remove round trip leaves
`get_all_exclusions()` unchanged provided the lowercased phrase was not
already a persistent exclusion (or is also a session exclusion, in which
case the union hides its removal). -/
theorem exclusion_round_trip_amended (m : SearchModel) (x : String)
    (h : pyLower x ∉ m.persistent_exclusions ∨ pyLower x ∈ m.session_exclusions) :
    SearchModel.get_all_exclusions
        (((m.add_exclusion x true).1).remove_exclusion x true).1
      = m.get_all_exclusions := by
  ext y
  simp only [SearchModel.get_all_exclusions, SearchModel.add_exclusion,
    SearchModel.remove_exclusion, if_pos, Finset.mem_union, Finset.mem_erase,
    Finset.mem_insert]
  by_cases hy : y = pyLower x
  · subst hy
    rcases h with h | h <;> simp [h]
  · simp [hy]

/-- C6 witness: `exclusion_round_trip_amended` on a fresh board model and
the phrase `"y"`, which is not among its (empty) persistent exclusions. -/
theorem exclusion_round_trip_witness :
    SearchModel.get_all_exclusions
        ((((SearchModel.init "board").add_exclusion "y" true).1).remove_exclusion
          "y" true).1
      = (SearchModel.init "board").get_all_exclusions :=
  exclusion_round_trip_amended (SearchModel.init "board") "y" (Or.inl (by decide))

/-! ## C1 -/

lemma mem_firstOcc {x : String} : ∀ l : List String, x ∈ firstOcc l ↔ x ∈ l := by
  intro l
  induction l with
  | nil => simp [firstOcc]
  | cons a as ih =>
      simp only [firstOcc, List.mem_cons, List.mem_filter, decide_eq_true_eq, ih]
      by_cases hxa : x = a <;> simp [hxa]

lemma nodup_firstOcc : ∀ l : List String, (firstOcc l).Nodup := by
  intro l
  induction l with
  | nil => simp [firstOcc]
  | cons a as ih =>
      simp only [firstOcc, List.nodup_cons]
      refine ⟨?_, ih.filter _⟩
      simp [List.mem_filter]

/-- The last pair of `all_results` whose candidate id is `j` — the value a
Python dict comprehension keyed on the id retains for key `j`. -/
def lastWithId (l : List (Video × Int)) (j : String) : Option (Video × Int) :=
  (l.filter (fun p => decide (p.1.id = j))).getLast?

lemma lastWithId_id {l : List (Video × Int)} {j : String} {q : Video × Int}
    (h : lastWithId l j = some q) : q.1.id = j := by
  have hq : q ∈ l.filter (fun p => decide (p.1.id = j)) :=
    List.mem_of_mem_getLast? h
  rw [List.mem_filter] at hq
  exact of_decide_eq_true hq.2

lemma filterMap_lastWithId_filter (l : List (Video × Int)) (i : String) :
    ∀ L : List String, L.Nodup →
      ((L.filterMap (lastWithId l)).filter (fun p => decide (p.1.id = i)))
        = if i ∈ L then (lastWithId l i).toList else [] := by
  intro L
  induction L with
  | nil => simp
  | cons j L' ih =>
      intro hnd
      rw [List.nodup_cons] at hnd
      obtain ⟨hjL, hnd'⟩ := hnd
      rw [List.filterMap_cons]
      cases hfj : lastWithId l j with
      | none =>
          rw [ih hnd']
          by_cases hij : i = j
          · subst hij
            simp [hjL, hfj]
          · simp [List.mem_cons, hij]
      | some q =>
          have hq : q.1.id = j := lastWithId_id hfj
          by_cases hij : i = j
          · subst hij
            rw [List.filter_cons_of_pos (by simp [hq]), ih hnd']
            simp [hjL, hfj]
          · rw [List.filter_cons_of_neg (by simp [hq, Ne.symm hij]), ih hnd']
            simp [List.mem_cons, hij]

lemma dedupLastById_filter (l : List (Video × Int)) (i : String) :
    (dedupLastById l).filter (fun p => decide (p.1.id = i))
      = (lastWithId l i).toList := by
  unfold dedupLastById
  rw [show (fun j => (l.filter (fun p => decide (p.1.id = j))).getLast?)
        = lastWithId l from rfl]
  rw [filterMap_lastWithId_filter l i _ (nodup_firstOcc _)]
  by_cases hi : i ∈ firstOcc (l.map (fun p => p.1.id))
  · rw [if_pos hi]
  · rw [if_neg hi]
    rw [mem_firstOcc] at hi
    have hnil : l.filter (fun p => decide (p.1.id = i)) = [] := by
      rw [List.filter_eq_nil_iff]
      intro p hp hdec
      rw [decide_eq_true_eq] at hdec
      exact hi (hdec ▸ List.mem_map_of_mem (fun p => p.1.id) hp)
    rw [lastWithId, hnil]
    rfl

/-- C1 counterexample: the merge of `search_videos` does not keep the
highest-scoring occurrence of a duplicated id.  When id `"abc"` occurs
with score 30 first and score 10 second, the dict comprehension of line
1216 overwrites the earlier entry, and the final result pairs `"abc"`
with 10, not 30. -/
theorem search_merge_keeps_last_counterexample :
    search_videos_merge [(vAbc, 30), (vAbc, 10)] = [(vAbc, 10)]
      ∧ ((10 : Int) ≠ 30) := by
  refine ⟨by decide, by decide⟩

/-- C1 amended: the merge deduplicates by candidate id keeping the
LAST-encountered occurrence, not the highest-scoring one: for every id the
entries of the deduplicated merge carrying that id are exactly the last
pair of `all_results` with that id (so occurrences scored 10 then 30 do
merge to 30, as in the spec's example, but only because 30 comes last);
after the stable descending sort and truncation to 10 each id appears at
most once. -/
theorem search_merge_amended (l : List (Video × Int)) (i : String) :
    (dedupLastById l).filter (fun p => decide (p.1.id = i))
        = (lastWithId l i).toList
      ∧ (search_videos_merge l).countP (fun p => decide (p.1.id = i)) ≤ 1 := by
  refine ⟨dedupLastById_filter l i, ?_⟩
  unfold search_videos_merge
  have h1 :
      (((dedupLastById l).insertionSort (fun a b => a.2 ≥ b.2)).take 10).countP
          (fun p => decide (p.1.id = i))
        ≤ ((dedupLastById l).insertionSort (fun a b => a.2 ≥ b.2)).countP
            (fun p => decide (p.1.id = i)) :=
    (List.take_sublist 10 _).countP_le _
  have h2 :
      ((dedupLastById l).insertionSort (fun a b => a.2 ≥ b.2)).countP
          (fun p => decide (p.1.id = i))
        = (dedupLastById l).countP (fun p => decide (p.1.id = i)) :=
    (List.perm_insertionSort _ _).countP_eq _
  have h3 : (dedupLastById l).countP (fun p => decide (p.1.id = i)) ≤ 1 := by
    rw [List.countP_eq_length_filter, dedupLastById_filter l i]
    cases lastWithId l i <;> simp
  omega
